import Mathlib

/-!
Verification of `diffxpy/stats.py`: six per-feature statistical test
functions (likelihood-ratio test, Wald test, two-coefficient z-test,
Welch's t-test from moments and from raw data, Wilcoxon rank-sum test).

Numeric values are modelled as rationals (`ℚ`); 1-D numpy arrays as
`List ℚ`, 2-D arrays as `List (List ℚ)` (rows = observations, columns =
features).  Fallible numpy/scipy behaviour (shape-mismatch `ValueError`s
raised by the functions themselves, numpy broadcast errors, `IndexError`
from reading a missing shape entry) is modelled with `Except String`.

The statistical-distribution routines of scipy (`chi2(df).cdf`,
`norm(0,1).cdf`, `t(df).cdf`, `mannwhitneyu`) and `np.sqrt` are external
collaborators of this repository; each embedded function takes them as
explicit function parameters.
-/

set_option autoImplicit false

namespace DiffxpyStats

/-- Elementwise binary operation on two 1-D arrays with numpy's 1-D
broadcasting rule: equal lengths operate pointwise, a length-1 operand is
broadcast against the other, and any other length combination raises a
broadcast `ValueError`. -/
def bop (f : ℚ → ℚ → ℚ) (a b : List ℚ) : Except String (List ℚ) :=
  if a.length = b.length then
    Except.ok (List.zipWith f a b)
  else if a.length = 1 then
    Except.ok (b.map (fun y => f (a.headD 0) y))
  else if b.length = 1 then
    Except.ok (a.map (fun x => f x (b.headD 0)))
  else
    Except.error "ValueError: operands could not be broadcast together"

/-- Message of the (dead) length check in `likelihood_ratio_test`. -/
def lrt_msg : String :=
  "stats.likelihood_ratio_test(): ll_full and ll_red have to contain the same number of genes"

/-- Message raised by both length checks of `t_test_moments`
(the source uses the same string, naming mu and mu1, for both). -/
def t_test_moments_msg : String :=
  "stats.t_test_moments(): mu and mu1 have to contain the same number of entries"

/-- Message of the column-count check of `t_test_raw`. -/
def t_test_raw_msg : String :=
  "stats.t_test_raw(): x0 and x1 have to contain the same number of genes"

/-- Message of the dimensionality check of `wilcoxon`. -/
def wilcoxon_ndim_msg : String :=
  "stats.wilcoxon(): number of dimensions is not allowed to differ between x0 and x1!"

/-- Message of the axis-1 length check of `wilcoxon`; the post-reshape
check inside `t_test_raw` raises this very string (naming stats.wilcoxon). -/
def wilcoxon_axis_msg : String :=
  "stats.wilcoxon(): the first axis (number of tests) is not allowed to differ between x0 and x1!"

/-- Message of the length check of `wald_test`. -/
def wald_msg : String :=
  "stats.wald_test(): theta_mle and theta_sd have to contain the same number of entries"

/-- Message of the first check of `two_coef_z_test` (theta_mle0 vs theta_mle1). -/
def z_msg_mle : String :=
  "stats.two_coef_z_test(): theta_mle0 and theta_mle1 have to contain the same number of entries"

/-- Message of the second check of `two_coef_z_test` (theta_sd0 vs theta_sd1). -/
def z_msg_sd : String :=
  "stats.two_coef_z_test(): theta_sd0 and theta_sd1 have to contain the same number of entries"

/-- Message of the third check of `two_coef_z_test` (theta_mle0 vs theta_sd0). -/
def z_msg_cross : String :=
  "stats.two_coef_z_test(): theta_mle0 and theta_sd0 have to contain the same number of entries"

/-- Message of numpy's broadcast failure. -/
def broadcast_msg : String :=
  "ValueError: operands could not be broadcast together"

/-- Embedding of `likelihood_ratio_test` (stats.py lines 5-35).
`chi2cdf df x` stands for the external `scipy.stats.chi2(df).cdf(x)`.
The guard reproduces the source line 27 verbatim: it compares
`ll_full.shape[0]` with `ll_full.shape[0]` (itself). -/
def likelihood_ratio_test (chi2cdf : ℤ → ℚ → ℚ)
    (ll_full ll_reduced : List ℚ) (df_full df_reduced : ℤ) :
    Except String (List ℚ) :=
  if ll_full.length ≠ ll_full.length then
    Except.error lrt_msg
  else do
    let delta_df := df_full - df_reduced
    let diff ← bop (fun a b => a - b) ll_full ll_reduced
    let delta_dev := diff.map (fun d => 2 * d)
    Except.ok (delta_dev.map (fun d => 1 - chi2cdf delta_df d))

/-- Embedding of `wald_test` (stats.py lines 153-182).
`normcdf x` stands for the external `scipy.stats.norm(loc=0, scale=1).cdf(x)`. -/
def wald_test (normcdf : ℚ → ℚ)
    (theta_mle theta_sd : List ℚ) (theta0 : ℚ) : Except String (List ℚ) :=
  if theta_mle.length ≠ theta_sd.length then
    Except.error wald_msg
  else do
    let stat ← bop (fun m s => m / s) (theta_mle.map (fun m => m - theta0)) theta_sd
    Except.ok (stat.map (fun z => 1 - normcdf z))

/-- Embedding of `two_coef_z_test` (stats.py lines 185-223).
`normcdf` stands for `scipy.stats.norm(loc=0, scale=1).cdf`, `sqrtq` for
`np.sqrt`. -/
def two_coef_z_test (normcdf : ℚ → ℚ) (sqrtq : ℚ → ℚ)
    (theta_mle0 theta_mle1 theta_sd0 theta_sd1 : List ℚ) :
    Except String (List ℚ) :=
  if theta_mle0.length ≠ theta_mle1.length then
    Except.error z_msg_mle
  else if theta_sd0.length ≠ theta_sd1.length then
    Except.error z_msg_sd
  else if theta_mle0.length ≠ theta_sd0.length then
    Except.error z_msg_cross
  else do
    let ssq ← bop (fun a b => a + b)
      (theta_sd0.map (fun s => s ^ 2)) (theta_sd1.map (fun s => s ^ 2))
    let num ← bop (fun a b => a - b) theta_mle0 theta_mle1
    let z ← bop (fun a b => a / b) num (ssq.map sqrtq)
    Except.ok (z.map (fun v => 1 - normcdf v))

/-- Embedding of `t_test_moments` (stats.py lines 106-150).
`tcdf df x` stands for the external `scipy.stats.t(df).cdf(x)`, `sqrtq`
for `np.sqrt`.  Both guards raise the same message string, as in the
source (lines 134 and 136). -/
def t_test_moments (tcdf : ℚ → ℚ → ℚ) (sqrtq : ℚ → ℚ)
    (mu0 mu1 var0 var1 : List ℚ) (n0 n1 : ℤ) : Except String (List ℚ) :=
  if mu0.length ≠ mu1.length then
    Except.error t_test_moments_msg
  else if var0.length ≠ var1.length then
    Except.error t_test_moments_msg
  else do
    let svar ← bop (fun a b => a + b)
      (var0.map (fun v => v / (n0 : ℚ))) (var1.map (fun v => v / (n1 : ℚ)))
    let s_delta := svar.map sqrtq
    let num ← bop (fun a b => a - b) mu0 mu1
    let t ← bop (fun a b => a / b) num s_delta
    let dfden ← bop (fun a b => a + b)
      ((var0.map (fun v => v / (n0 : ℚ))).map (fun x => x ^ 2 / ((n0 : ℚ) - 1)))
      ((var1.map (fun v => v / (n1 : ℚ))).map (fun x => x ^ 2 / ((n1 : ℚ) - 1)))
    let df ← bop (fun a b => a / b) (svar.map (fun x => x ^ 2)) dfden
    let c ← bop (fun d x => tcdf d x) df t
    Except.ok (c.map (fun p => 1 - p))

/-- A numpy array of one or two dimensions. -/
inductive Arr where
  | one (v : List ℚ)
  | two (m : List (List ℚ))

/-- Model of `np.ndim`. -/
def Arr.ndim : Arr → ℕ
  | .one _ => 1
  | .two _ => 2

/-- Model of `x.shape[0]`: length (1-D) or row count (2-D). -/
def Arr.shape0 : Arr → ℕ
  | .one v => v.length
  | .two m => m.length

/-- Column count of a 2-D array (length of its first row). -/
def ncols (m : List (List ℚ)) : ℕ := (m.headD []).length

/-- Model of `x.shape[1]`: the second shape entry; reading it on a 1-D
array raises an `IndexError` (tuple index out of range), as numpy does. -/
def Arr.shape1 : Arr → Except String ℕ
  | .one _ => Except.error "IndexError: tuple index out of range"
  | .two m => Except.ok (ncols m)

/-- The underlying 2-D matrix; `x.reshape([x.shape[0], 1])` of a 1-D
array is the single-column matrix. -/
def Arr.mat : Arr → List (List ℚ)
  | .one v => v.map (fun a => [a])
  | .two m => m

/-- The reshape step shared by `wilcoxon` and `t_test_raw`:
if `np.ndim(x) == 1` then `x.reshape([x.shape[0], 1])` else `x`. -/
def reshape_if_1d (x : Arr) : Arr :=
  if Arr.ndim x = 1 then Arr.two (Arr.mat x) else x

/-- Column `i` of a 2-D array, `x[:, i].flatten()`. -/
def col (m : List (List ℚ)) (i : ℕ) : List ℚ :=
  m.map (fun row => row.getD i 0)

/-- Model of `np.mean(x, axis=0)` followed by `.flatten()`:
per-column arithmetic mean. -/
def np_mean_axis0 (m : List (List ℚ)) : List ℚ :=
  (List.range (ncols m)).map
    (fun j => (col m j).sum / ((col m j).length : ℚ))

/-- Model of `np.var(x, axis=0)` followed by `.flatten()`: per-column
mean of squared deviations from the column mean (population variance). -/
def np_var_axis0 (m : List (List ℚ)) : List ℚ :=
  (List.range (ncols m)).map
    (fun j =>
      ((col m j).map
        (fun x => (x - (col m j).sum / ((col m j).length : ℚ)) ^ 2)).sum /
        ((col m j).length : ℚ))

/-- Embedding of `t_test_raw` (stats.py lines 69-103).  The first guard
reads `x0.shape[1]` and `x1.shape[1]` before the 1-D reshape, as the
source does (line 86 precedes lines 88-91); the post-reshape guard
raises the `stats.wilcoxon()` message string, as in line 93. -/
def t_test_raw (tcdf : ℚ → ℚ → ℚ) (sqrtq : ℚ → ℚ) (x0 x1 : Arr) :
    Except String (List ℚ) := do
  let c0 ← Arr.shape1 x0
  let c1 ← Arr.shape1 x1
  if c0 ≠ c1 then
    Except.error t_test_raw_msg
  else
    let y0 := reshape_if_1d x0
    let y1 := reshape_if_1d x1
    do
      let d0 ← Arr.shape1 y0
      let d1 ← Arr.shape1 y1
      if d0 ≠ d1 then
        Except.error wilcoxon_axis_msg
      else
        t_test_moments tcdf sqrtq
          (np_mean_axis0 (Arr.mat y0)) (np_mean_axis0 (Arr.mat y1))
          (np_var_axis0 (Arr.mat y0)) (np_var_axis0 (Arr.mat y1))
          (Arr.shape0 y0 : ℤ) (Arr.shape0 y1 : ℤ)

/-- Embedding of `wilcoxon` (stats.py lines 38-66).  `mwu a b` stands
for the external two-sided Mann-Whitney U p-value
`scipy.stats.mannwhitneyu(x=a, y=b, alternative="two-sided").pvalue`. -/
def wilcoxon (mwu : List ℚ → List ℚ → ℚ) (x0 x1 : Arr) :
    Except String (List ℚ) :=
  if Arr.ndim x0 ≠ Arr.ndim x1 then
    Except.error wilcoxon_ndim_msg
  else
    let y0 := reshape_if_1d x0
    let y1 := reshape_if_1d x1
    do
      let c0 ← Arr.shape1 y0
      let c1 ← Arr.shape1 y1
      if c0 ≠ c1 then
        Except.error wilcoxon_axis_msg
      else
        Except.ok ((List.range c0).map
          (fun i => mwu (col (Arr.mat y0) i) (col (Arr.mat y1) i)))

/-- Modelled from the spec (section 4.5): per-column mean of an
observation matrix, dividing each column sum by the row count. -/
def spec_col_means (m : List (List ℚ)) : List ℚ :=
  (List.range (ncols m)).map
    (fun j => (col m j).sum / (m.length : ℚ))

/-- Modelled from the spec (section 4.5): per-column population variance
of an observation matrix, dividing by n (the row count), not n-1. -/
def spec_col_vars (m : List (List ℚ)) : List ℚ :=
  (List.range (ncols m)).map
    (fun j =>
      ((col m j).map
        (fun x => (x - (col m j).sum / (m.length : ℚ)) ^ 2)).sum /
        (m.length : ℚ))

/-- On equal-length inputs `bop` is pointwise `zipWith`. -/
theorem bop_of_length_eq (f : ℚ → ℚ → ℚ) {a b : List ℚ} (h : a.length = b.length) :
    bop f a b = Except.ok (List.zipWith f a b) := by
  simp [bop, h]

/-- Binding a successful `Except` value applies the continuation. -/
theorem except_bind_ok {α β : Type} (a : α) (f : α → Except String β) :
    (Except.ok a >>= f) = f a := rfl

/-- Binding a failed `Except` value propagates the error. -/
theorem except_bind_error {α β : Type} (msg : String) (f : α → Except String β) :
    ((Except.error msg : Except String α) >>= f) = Except.error msg := rfl

/-- The only error `bop` itself can produce is the broadcast error. -/
theorem bop_error_eq (f : ℚ → ℚ → ℚ) {a b : List ℚ} {msg : String}
    (h : bop f a b = Except.error msg) : msg = broadcast_msg := by
  rw [bop] at h
  split at h
  · exact Except.noConfusion h
  · split at h
    · exact Except.noConfusion h
    · split at h
      · exact Except.noConfusion h
      · injection h with h
        exact h.symm

/-- C1: the length check of `likelihood_ratio_test` (source line 27)
compares `ll_full.shape[0]` against itself, so it can never fire: the
function never raises its shape-mismatch message, and on the mismatched
pair `ll_full = [-100, -50]`, `ll_reduced = [-105]` it silently
broadcasts and returns two p-values instead of raising. -/
theorem likelihood_ratio_test_check_dead (chi2cdf : ℤ → ℚ → ℚ) :
    (∀ (ll_full ll_reduced : List ℚ) (df_full df_reduced : ℤ),
      likelihood_ratio_test chi2cdf ll_full ll_reduced df_full df_reduced ≠
        Except.error lrt_msg) ∧
    likelihood_ratio_test chi2cdf [-100, -50] [-105] 3 1 =
      Except.ok [1 - chi2cdf 2 10, 1 - chi2cdf 2 110] := by
  constructor
  · intro ll_full ll_reduced df_full df_reduced
    unfold likelihood_ratio_test
    rw [if_neg (by simp)]
    rcases hb : bop (fun a b => a - b) ll_full ll_reduced with msg | l
    · rw [except_bind_error]
      have hmsg := bop_error_eq _ hb
      subst hmsg
      intro hcontra
      injection hcontra with hcontra
      revert hcontra
      decide
    · rw [except_bind_ok]
      intro hcontra
      exact Except.noConfusion hcontra
  · unfold likelihood_ratio_test
    rw [if_neg (by simp)]
    norm_num [bop, except_bind_ok]

/-- C2: `t_test_raw` reads `x0.shape[1]` (source line 86) before the 1-D
reshape of lines 88-91, so a pair of 1-D single-feature inputs raises an
`IndexError` instead of being reshaped to single-column matrices. -/
theorem t_test_raw_one_dim_index_error (tcdf : ℚ → ℚ → ℚ) (sqrtq : ℚ → ℚ) :
    t_test_raw tcdf sqrtq (Arr.one [1, 2, 3]) (Arr.one [2, 3, 4]) =
      Except.error "IndexError: tuple index out of range" := rfl

/-- C3: when the variance-length check of `t_test_moments` fires (source
line 136) its message names mu and mu1, not var0 and var1; and the
post-reshape check of `t_test_raw` (source line 93) raises a message
naming stats.wilcoxon, not stats.t_test_raw. -/
theorem shape_mismatch_messages_wrong (tcdf : ℚ → ℚ → ℚ) (sqrtq : ℚ → ℚ) :
    t_test_moments tcdf sqrtq [1] [2] [1] [1, 2] 3 3 =
      Except.error "stats.t_test_moments(): mu and mu1 have to contain the same number of entries" ∧
    wilcoxon_axis_msg =
      "stats.wilcoxon(): the first axis (number of tests) is not allowed to differ between x0 and x1!" := by
  exact ⟨rfl, rfl⟩

/-- C5: `wald_test` computes, per feature, the one-sided upper-tail
p-value `1 - Φ((theta_mle - theta0) / theta_sd)`; at
`theta_mle = [1]`, `theta_sd = [1]`, `theta0 = 0` it returns
`[1 - Φ(1)]`. -/
theorem wald_test_spec (normcdf : ℚ → ℚ) (theta_mle theta_sd : List ℚ) (theta0 : ℚ)
    (h : theta_mle.length = theta_sd.length) :
    wald_test normcdf theta_mle theta_sd theta0 =
      Except.ok (List.zipWith
        (fun m s => 1 - normcdf ((m - theta0) / s)) theta_mle theta_sd) ∧
    wald_test normcdf [1] [1] 0 = Except.ok [1 - normcdf 1] := by
  constructor
  · have hlen : (theta_mle.map (fun m => m - theta0)).length = theta_sd.length := by
      simpa using h
    simp [wald_test, h, bop_of_length_eq _ hlen, except_bind_ok,
      List.zipWith_map_left, List.map_zipWith]
  · norm_num [wald_test, bop, except_bind_ok]

/-- Closed witness for `wald_test_spec` at equal-length inputs. -/
theorem wald_test_spec_witness :
    ([(2 : ℚ), 3].length = [(1 : ℚ), 4].length) ∧
    (wald_test (fun x => x / 2) [2, 3] [1, 4] 1 =
      Except.ok (List.zipWith
        (fun m s => 1 - (fun x : ℚ => x / 2) ((m - 1) / s)) [2, 3] [1, 4]) ∧
    wald_test (fun x => x / 2) [1] [1] 0 =
      Except.ok [1 - (fun x : ℚ => x / 2) 1]) :=
  ⟨by decide, wald_test_spec (fun x => x / 2) [2, 3] [1, 4] 1 (by decide)⟩

/-- Every result of `bop` is either the broadcast error or a success. -/
theorem bop_ok_or_broadcast (f : ℚ → ℚ → ℚ) (a b : List ℚ) :
    bop f a b = Except.error broadcast_msg ∨ ∃ l, bop f a b = Except.ok l := by
  rw [bop]
  split
  · exact Or.inr ⟨_, rfl⟩
  · split
    · exact Or.inr ⟨_, rfl⟩
    · split
      · exact Or.inr ⟨_, rfl⟩
      · exact Or.inl rfl

/-- C4: for equal-length log-likelihood vectors, `likelihood_ratio_test`
returns per feature `1 - CDF_chi2(df_full - df_reduced)(2 * (ll_full -
ll_reduced))`; at `ll_full = [-100, -50]`, `ll_reduced = [-105, -50]`,
`df_full = 3`, `df_reduced = 1` the second feature's p-value is exactly 1
(using that a chi-square CDF vanishes at 0). -/
theorem likelihood_ratio_test_spec (chi2cdf : ℤ → ℚ → ℚ)
    (ll_full ll_reduced : List ℚ) (df_full df_reduced : ℤ)
    (h : ll_full.length = ll_reduced.length) (hc : chi2cdf 2 0 = 0) :
    likelihood_ratio_test chi2cdf ll_full ll_reduced df_full df_reduced =
      Except.ok (List.zipWith
        (fun a b => 1 - chi2cdf (df_full - df_reduced) (2 * (a - b)))
        ll_full ll_reduced) ∧
    likelihood_ratio_test chi2cdf [-100, -50] [-105, -50] 3 1 =
      Except.ok [1 - chi2cdf 2 10, 1] := by
  constructor
  · unfold likelihood_ratio_test
    rw [if_neg (by simp), bop_of_length_eq _ h, except_bind_ok]
    simp [List.map_zipWith]
  · unfold likelihood_ratio_test
    rw [if_neg (by simp)]
    norm_num [bop, except_bind_ok, hc]

/-- Closed witness for `likelihood_ratio_test_spec`. -/
theorem likelihood_ratio_test_spec_witness :
    (([-100, -50] : List ℚ).length = ([-105, -50] : List ℚ).length) ∧
    ((fun (_ : ℤ) (x : ℚ) => x) 2 0 = 0) ∧
    (likelihood_ratio_test (fun _ x => x) [-100, -50] [-105, -50] 3 1 =
      Except.ok (List.zipWith
        (fun a b : ℚ => 1 - 2 * (a - b)) [-100, -50] [-105, -50]) ∧
    likelihood_ratio_test (fun _ x => x) [-100, -50] [-105, -50] 3 1 =
      Except.ok [1 - (10 : ℚ), 1]) := by
  refine ⟨by decide, by decide, ?_⟩
  have h := likelihood_ratio_test_spec (fun _ x => x) [-100, -50] [-105, -50]
    3 1 (by decide) (by decide)
  exact h

/-- C8: `two_coef_z_test` raises a shape-mismatch error naming a
genuinely mismatching pair whenever any two of its four input vectors
differ in length, and returns successfully only when all four lengths
are equal. -/
theorem two_coef_z_test_checks (normcdf sqrtq : ℚ → ℚ)
    (theta_mle0 theta_mle1 theta_sd0 theta_sd1 : List ℚ) :
    (theta_mle0.length ≠ theta_mle1.length ∨ theta_mle0.length ≠ theta_sd0.length ∨
     theta_mle0.length ≠ theta_sd1.length ∨ theta_mle1.length ≠ theta_sd0.length ∨
     theta_mle1.length ≠ theta_sd1.length ∨ theta_sd0.length ≠ theta_sd1.length →
      ∃ msg, two_coef_z_test normcdf sqrtq theta_mle0 theta_mle1 theta_sd0 theta_sd1 =
          Except.error msg ∧
        ((msg = z_msg_mle ∧ theta_mle0.length ≠ theta_mle1.length) ∨
         (msg = z_msg_sd ∧ theta_sd0.length ≠ theta_sd1.length) ∨
         (msg = z_msg_cross ∧ theta_mle0.length ≠ theta_sd0.length))) ∧
    (∀ pv, two_coef_z_test normcdf sqrtq theta_mle0 theta_mle1 theta_sd0 theta_sd1 =
        Except.ok pv →
      theta_mle0.length = theta_mle1.length ∧ theta_sd0.length = theta_sd1.length ∧
      theta_mle0.length = theta_sd0.length ∧ theta_mle1.length = theta_sd1.length) := by
  constructor
  · intro h
    by_cases h1 : theta_mle0.length = theta_mle1.length
    · by_cases h2 : theta_sd0.length = theta_sd1.length
      · by_cases h3 : theta_mle0.length = theta_sd0.length
        · exact absurd h (by push_neg; omega)
        · exact ⟨z_msg_cross, by rw [two_coef_z_test, if_neg (by simpa using h1),
            if_neg (by simpa using h2), if_pos h3], Or.inr (Or.inr ⟨rfl, h3⟩)⟩
      · exact ⟨z_msg_sd, by rw [two_coef_z_test, if_neg (by simpa using h1),
          if_pos h2], Or.inr (Or.inl ⟨rfl, h2⟩)⟩
    · exact ⟨z_msg_mle, by rw [two_coef_z_test, if_pos h1], Or.inl ⟨rfl, h1⟩⟩
  · intro pv hpv
    by_cases h1 : theta_mle0.length = theta_mle1.length
    · by_cases h2 : theta_sd0.length = theta_sd1.length
      · by_cases h3 : theta_mle0.length = theta_sd0.length
        · exact ⟨h1, h2, h3, by omega⟩
        · rw [two_coef_z_test, if_neg (by simpa using h1), if_neg (by simpa using h2),
            if_pos h3] at hpv
          exact Except.noConfusion hpv
      · rw [two_coef_z_test, if_neg (by simpa using h1), if_pos h2] at hpv
        exact Except.noConfusion hpv
    · rw [two_coef_z_test, if_pos h1] at hpv
      exact Except.noConfusion hpv

/-- Closed witness for `two_coef_z_test_checks`: a standard-deviation
length mismatch raises the error naming theta_sd0 and theta_sd1. -/
theorem two_coef_z_test_checks_witness :
    ∃ msg, two_coef_z_test (fun x => x) (fun x => x) [1] [2] [3] [4, 5] =
        Except.error msg ∧
      ((msg = z_msg_mle ∧ ([(1 : ℚ)].length ≠ [(2 : ℚ)].length)) ∨
       (msg = z_msg_sd ∧ ([(3 : ℚ)].length ≠ [(4 : ℚ), 5].length)) ∨
       (msg = z_msg_cross ∧ ([(1 : ℚ)].length ≠ [(3 : ℚ)].length))) := by
  have h := two_coef_z_test_checks (fun x => x) (fun x => x) [1] [2] [3] [4, 5]
  exact h.1 (by decide)

/-- C10: when the mean vectors agree in length and the variance vectors
agree in length, the validation layer of `t_test_moments` passes even if
the mean length differs from the variance length; the cross mismatch
then reaches the arithmetic, which either broadcasts to a result or
fails with numpy's broadcast error, never with the function's own
shape-mismatch message. -/
theorem t_test_moments_cross_mismatch (tcdf : ℚ → ℚ → ℚ) (sqrtq : ℚ → ℚ)
    (mu0 mu1 var0 var1 : List ℚ) (n0 n1 : ℤ)
    (hmu : mu0.length = mu1.length) (hvar : var0.length = var1.length)
    (hne : mu0.length ≠ var0.length) :
    t_test_moments tcdf sqrtq mu0 mu1 var0 var1 n0 n1 ≠
      Except.error t_test_moments_msg ∧
    (t_test_moments tcdf sqrtq mu0 mu1 var0 var1 n0 n1 =
        Except.error broadcast_msg ∨
     ∃ pv, t_test_moments tcdf sqrtq mu0 mu1 var0 var1 n0 n1 =
        Except.ok pv) := by
  have hsvar : (var0.map (fun v => v / (n0 : ℚ))).length =
      (var1.map (fun v => v / (n1 : ℚ))).length := by simpa using hvar
  have hden : ((var0.map (fun v => v / (n0 : ℚ))).map
        (fun x => x ^ 2 / ((n0 : ℚ) - 1))).length =
      ((var1.map (fun v => v / (n1 : ℚ))).map
        (fun x => x ^ 2 / ((n1 : ℚ) - 1))).length := by simpa using hvar
  have key : t_test_moments tcdf sqrtq mu0 mu1 var0 var1 n0 n1 =
      Except.error broadcast_msg ∨
      ∃ pv, t_test_moments tcdf sqrtq mu0 mu1 var0 var1 n0 n1 = Except.ok pv := by
    rw [t_test_moments, if_neg (by simpa using hmu), if_neg (by simpa using hvar),
      bop_of_length_eq _ hsvar, except_bind_ok, bop_of_length_eq _ hmu, except_bind_ok]
    rcases bop_ok_or_broadcast (fun a b => a / b)
        (List.zipWith (fun a b => a - b) mu0 mu1)
        ((List.zipWith (fun a b => a + b) (var0.map (fun v => v / (n0 : ℚ)))
          (var1.map (fun v => v / (n1 : ℚ)))).map sqrtq) with ht | ⟨t, ht⟩
    · rw [ht, except_bind_error]
      exact Or.inl rfl
    · rw [ht, except_bind_ok, bop_of_length_eq _ hden, except_bind_ok]
      have hdf : ((List.zipWith (fun a b => a + b) (var0.map (fun v => v / (n0 : ℚ)))
            (var1.map (fun v => v / (n1 : ℚ)))).map (fun x => x ^ 2)).length =
          (List.zipWith (fun a b => a + b)
            ((var0.map (fun v => v / (n0 : ℚ))).map (fun x => x ^ 2 / ((n0 : ℚ) - 1)))
            ((var1.map (fun v => v / (n1 : ℚ))).map
              (fun x => x ^ 2 / ((n1 : ℚ) - 1)))).length := by
        simp [List.length_zipWith]
      rw [bop_of_length_eq _ hdf, except_bind_ok]
      rcases bop_ok_or_broadcast (fun d x => tcdf d x) _ t with hc | ⟨c, hc⟩
      · rw [hc, except_bind_error]
        exact Or.inl rfl
      · rw [hc, except_bind_ok]
        exact Or.inr ⟨_, rfl⟩
  refine ⟨?_, key⟩
  rcases key with hk | ⟨pv, hk⟩
  · rw [hk]
    intro hcontra
    injection hcontra with hcontra
    revert hcontra
    decide
  · rw [hk]
    intro hcontra
    exact Except.noConfusion hcontra

/-- Closed witness for `t_test_moments_cross_mismatch`: mean vectors of
length 2 against variance vectors of length 1 pass validation and
broadcast to a successful result. -/
theorem t_test_moments_cross_mismatch_witness :
    ([(1 : ℚ), 2].length = [(3 : ℚ), 4].length) ∧
    ([(5 : ℚ)].length = [(6 : ℚ)].length) ∧
    ([(1 : ℚ), 2].length ≠ [(5 : ℚ)].length) ∧
    (t_test_moments (fun d x => d + x) (fun x => x) [1, 2] [3, 4] [5] [6] 3 3 ≠
      Except.error t_test_moments_msg ∧
    (t_test_moments (fun d x => d + x) (fun x => x) [1, 2] [3, 4] [5] [6] 3 3 =
        Except.error broadcast_msg ∨
     ∃ pv, t_test_moments (fun d x => d + x) (fun x => x) [1, 2] [3, 4] [5] [6] 3 3 =
        Except.ok pv)) :=
  ⟨by decide, by decide, by decide,
    t_test_moments_cross_mismatch (fun d x => d + x) (fun x => x)
      [1, 2] [3, 4] [5] [6] 3 3 (by decide) (by decide) (by decide)⟩

/-- A column always has one entry per row. -/
theorem col_length (m : List (List ℚ)) (j : ℕ) : (col m j).length = m.length := by
  simp [col]

/-- The numpy per-column mean coincides with the spec's per-column mean
(column sum divided by the row count). -/
theorem np_mean_axis0_eq_spec (m : List (List ℚ)) :
    np_mean_axis0 m = spec_col_means m := by
  simp [np_mean_axis0, spec_col_means, col_length]

/-- The numpy per-column variance coincides with the spec's per-column
population variance (divide by n, not n-1). -/
theorem np_var_axis0_eq_spec (m : List (List ℚ)) :
    np_var_axis0 m = spec_col_vars m := by
  simp [np_var_axis0, spec_col_vars, col_length]

/-- Reshaping produces a 2-D array whose shape entry 1 is its column count. -/
theorem shape1_reshape_if_1d (x : Arr) :
    Arr.shape1 (reshape_if_1d x) =
      Except.ok (ncols (Arr.mat (reshape_if_1d x))) := by
  cases x <;> simp [reshape_if_1d, Arr.ndim, Arr.shape1, Arr.mat]

/-- C7: on 2-D observation matrices with equal column count,
`t_test_raw` returns exactly `t_test_moments` applied to the per-column
means, the per-column population variances (divisor n, not n-1), and the
row counts of the two matrices, as the spec describes. -/
theorem t_test_raw_refines_moments (tcdf : ℚ → ℚ → ℚ) (sqrtq : ℚ → ℚ)
    (x0 x1 : List (List ℚ))
    (hr0 : ∀ r ∈ x0, r.length = ncols x0)
    (hr1 : ∀ r ∈ x1, r.length = ncols x1)
    (hc : ncols x0 = ncols x1) :
    t_test_raw tcdf sqrtq (Arr.two x0) (Arr.two x1) =
      t_test_moments tcdf sqrtq
        (spec_col_means x0) (spec_col_means x1)
        (spec_col_vars x0) (spec_col_vars x1)
        (x0.length : ℤ) (x1.length : ℤ) := by
  rw [t_test_raw]
  simp only [Arr.shape1, except_bind_ok]
  rw [if_neg (by simp [hc])]
  simp only [reshape_if_1d, Arr.ndim, Arr.mat, if_neg (by norm_num : ¬(2 = 1)),
    Arr.shape1, except_bind_ok]
  rw [if_neg (by simp [hc])]
  rw [np_mean_axis0_eq_spec, np_mean_axis0_eq_spec,
    np_var_axis0_eq_spec, np_var_axis0_eq_spec]
  rfl

/-- Closed witness for `t_test_raw_refines_moments` on the spec's
concrete 3-observations-by-2-features scenario. -/
theorem t_test_raw_refines_moments_witness :
    (∀ r ∈ [[(1 : ℚ), 2], [3, 4], [5, 6]], r.length = ncols [[(1 : ℚ), 2], [3, 4], [5, 6]]) ∧
    (∀ r ∈ [[(2 : ℚ), 3], [4, 5], [6, 7]], r.length = ncols [[(2 : ℚ), 3], [4, 5], [6, 7]]) ∧
    (ncols [[(1 : ℚ), 2], [3, 4], [5, 6]] = ncols [[(2 : ℚ), 3], [4, 5], [6, 7]]) ∧
    t_test_raw (fun d x => d + x) (fun x => x)
        (Arr.two [[1, 2], [3, 4], [5, 6]]) (Arr.two [[2, 3], [4, 5], [6, 7]]) =
      t_test_moments (fun d x => d + x) (fun x => x)
        (spec_col_means [[1, 2], [3, 4], [5, 6]])
        (spec_col_means [[2, 3], [4, 5], [6, 7]])
        (spec_col_vars [[1, 2], [3, 4], [5, 6]])
        (spec_col_vars [[2, 3], [4, 5], [6, 7]])
        (([[(1 : ℚ), 2], [3, 4], [5, 6]].length : ℕ) : ℤ)
        (([[(2 : ℚ), 3], [4, 5], [6, 7]].length : ℕ) : ℤ) :=
  ⟨by decide, by decide, by decide,
    t_test_raw_refines_moments (fun d x => d + x) (fun x => x)
      [[1, 2], [3, 4], [5, 6]] [[2, 3], [4, 5], [6, 7]]
      (by decide) (by decide) (by decide)⟩

/-- C9: on inputs of equal dimensionality whose feature counts agree
after the 1-D reshape, `wilcoxon` returns one p-value per feature, the
i-th being the two-sided Mann-Whitney U p-value of column i of the two
(reshaped) matrices, each entry depending only on its own column pair. -/
theorem wilcoxon_spec (mwu : List ℚ → List ℚ → ℚ) (x0 x1 : Arr)
    (hd : Arr.ndim x0 = Arr.ndim x1)
    (hc : ncols (Arr.mat (reshape_if_1d x0)) = ncols (Arr.mat (reshape_if_1d x1))) :
    wilcoxon mwu x0 x1 =
      Except.ok ((List.range (ncols (Arr.mat (reshape_if_1d x0)))).map
        (fun i => mwu (col (Arr.mat (reshape_if_1d x0)) i)
                      (col (Arr.mat (reshape_if_1d x1)) i))) := by
  rw [wilcoxon, if_neg (by simp [hd])]
  simp only [shape1_reshape_if_1d, except_bind_ok]
  rw [if_neg (by simp [hc])]

/-- Closed witness for `wilcoxon_spec` on a pair of 1-D single-feature
inputs, exercising the reshape path. -/
theorem wilcoxon_spec_witness :
    (Arr.ndim (Arr.one [1, 2, 3]) = Arr.ndim (Arr.one [4, 5, 6])) ∧
    (ncols (Arr.mat (reshape_if_1d (Arr.one [1, 2, 3]))) =
      ncols (Arr.mat (reshape_if_1d (Arr.one [4, 5, 6])))) ∧
    wilcoxon (fun a b => a.sum - b.sum) (Arr.one [1, 2, 3]) (Arr.one [4, 5, 6]) =
      Except.ok ((List.range (ncols (Arr.mat (reshape_if_1d (Arr.one [1, 2, 3]))))).map
        (fun i => (fun a b : List ℚ => a.sum - b.sum)
          (col (Arr.mat (reshape_if_1d (Arr.one [1, 2, 3]))) i)
          (col (Arr.mat (reshape_if_1d (Arr.one [4, 5, 6]))) i))) :=
  ⟨by decide, by decide,
    wilcoxon_spec (fun a b => a.sum - b.sum) (Arr.one [1, 2, 3]) (Arr.one [4, 5, 6])
      (by decide) (by decide)⟩

/-- C6: for equal-length mean and variance vectors and counts above 1,
`t_test_moments` returns per feature `1 - CDF_t(df)(t)` with
`t = (mu0 - mu1) / sqrt(var0/n0 + var1/n1)` and the per-feature
Welch-Satterthwaite degrees of freedom
`df = (var0/n0 + var1/n1)^2 / ((var0/n0)^2/(n0-1) + (var1/n1)^2/(n1-1))`,
each feature using its own df. -/
theorem t_test_moments_spec (tcdf : ℚ → ℚ → ℚ) (sqrtq : ℚ → ℚ)
    (mu0 mu1 var0 var1 : List ℚ) (n0 n1 : ℤ)
    (hmu : mu0.length = mu1.length) (hvar : var0.length = var1.length)
    (hmv : mu0.length = var0.length) (hn0 : 1 < n0) (hn1 : 1 < n1) :
    t_test_moments tcdf sqrtq mu0 mu1 var0 var1 n0 n1 =
      Except.ok ((List.range mu0.length).map (fun i =>
        1 - tcdf
          ((var0.getD i 0 / (n0 : ℚ) + var1.getD i 0 / (n1 : ℚ)) ^ 2 /
            ((var0.getD i 0 / (n0 : ℚ)) ^ 2 / ((n0 : ℚ) - 1) +
             (var1.getD i 0 / (n1 : ℚ)) ^ 2 / ((n1 : ℚ) - 1)))
          ((mu0.getD i 0 - mu1.getD i 0) /
            sqrtq (var0.getD i 0 / (n0 : ℚ) + var1.getD i 0 / (n1 : ℚ))))) := by
  have hsvar : (var0.map (fun v => v / (n0 : ℚ))).length =
      (var1.map (fun v => v / (n1 : ℚ))).length := by simpa using hvar
  have hden : ((var0.map (fun v => v / (n0 : ℚ))).map
        (fun x => x ^ 2 / ((n0 : ℚ) - 1))).length =
      ((var1.map (fun v => v / (n1 : ℚ))).map
        (fun x => x ^ 2 / ((n1 : ℚ) - 1))).length := by simpa using hvar
  rw [t_test_moments, if_neg (by simpa using hmu), if_neg (by simpa using hvar),
    bop_of_length_eq _ hsvar, except_bind_ok, bop_of_length_eq _ hmu, except_bind_ok]
  have ht : (List.zipWith (fun a b => a - b) mu0 mu1).length =
      ((List.zipWith (fun a b => a + b) (var0.map (fun v => v / (n0 : ℚ)))
        (var1.map (fun v => v / (n1 : ℚ)))).map sqrtq).length := by
    simp [List.length_zipWith]
    omega
  rw [bop_of_length_eq _ ht, except_bind_ok, bop_of_length_eq _ hden, except_bind_ok]
  have hdf : ((List.zipWith (fun a b => a + b) (var0.map (fun v => v / (n0 : ℚ)))
        (var1.map (fun v => v / (n1 : ℚ)))).map (fun x => x ^ 2)).length =
      (List.zipWith (fun a b => a + b)
        ((var0.map (fun v => v / (n0 : ℚ))).map (fun x => x ^ 2 / ((n0 : ℚ) - 1)))
        ((var1.map (fun v => v / (n1 : ℚ))).map
          (fun x => x ^ 2 / ((n1 : ℚ) - 1)))).length := by
    simp [List.length_zipWith]
  rw [bop_of_length_eq _ hdf, except_bind_ok]
  have hfin : (List.zipWith (fun a b => a / b)
        (((List.zipWith (fun a b => a + b) (var0.map (fun v => v / (n0 : ℚ)))
          (var1.map (fun v => v / (n1 : ℚ)))).map (fun x => x ^ 2)))
        (List.zipWith (fun a b => a + b)
          ((var0.map (fun v => v / (n0 : ℚ))).map (fun x => x ^ 2 / ((n0 : ℚ) - 1)))
          ((var1.map (fun v => v / (n1 : ℚ))).map
            (fun x => x ^ 2 / ((n1 : ℚ) - 1))))).length =
      ((List.zipWith (fun a b => a - b) mu0 mu1).zipWith (fun a b => a / b)
        ((List.zipWith (fun a b => a + b) (var0.map (fun v => v / (n0 : ℚ)))
          (var1.map (fun v => v / (n1 : ℚ)))).map sqrtq)).length := by
    simp [List.length_zipWith]
    omega
  rw [bop_of_length_eq _ hfin, except_bind_ok]
  refine congrArg Except.ok (List.ext_getElem ?_ ?_)
  · simp [List.length_zipWith]
    omega
  · intro i h1 h2
    simp only [List.getElem_map, List.getElem_zipWith, List.getElem_range]
    have hi : i < mu0.length := by
      simpa using h2
    rw [List.getD_eq_getElem mu0 0 hi, List.getD_eq_getElem mu1 0 (by omega),
      List.getD_eq_getElem var0 0 (by omega), List.getD_eq_getElem var1 0 (by omega)]

/-- Closed witness for `t_test_moments_spec` at single-feature inputs. -/
theorem t_test_moments_spec_witness :
    ([(1 : ℚ)].length = [(2 : ℚ)].length) ∧
    ([(4 : ℚ)].length = [(9 : ℚ)].length) ∧
    ([(1 : ℚ)].length = [(4 : ℚ)].length) ∧
    ((1 : ℤ) < 3) ∧ ((1 : ℤ) < 5) ∧
    t_test_moments (fun d x => d + x) (fun x => x) [1] [2] [4] [9] 3 5 =
      Except.ok ((List.range [(1 : ℚ)].length).map (fun i =>
        1 - (fun d x : ℚ => d + x)
          (([(4 : ℚ)].getD i 0 / ((3 : ℤ) : ℚ) + [(9 : ℚ)].getD i 0 / ((5 : ℤ) : ℚ)) ^ 2 /
            (([(4 : ℚ)].getD i 0 / ((3 : ℤ) : ℚ)) ^ 2 / (((3 : ℤ) : ℚ) - 1) +
             ([(9 : ℚ)].getD i 0 / ((5 : ℤ) : ℚ)) ^ 2 / (((5 : ℤ) : ℚ) - 1)))
          (([(1 : ℚ)].getD i 0 - [(2 : ℚ)].getD i 0) /
            (fun x : ℚ => x)
              ([(4 : ℚ)].getD i 0 / ((3 : ℤ) : ℚ) + [(9 : ℚ)].getD i 0 / ((5 : ℤ) : ℚ))))) :=
  ⟨by decide, by decide, by decide, by decide, by decide,
    t_test_moments_spec (fun d x => d + x) (fun x => x) [1] [2] [4] [9] 3 5
      (by decide) (by decide) (by decide) (by decide) (by decide)⟩

end DiffxpyStats
